import Mathlib

/-!
# Verification of the wrapped-tessl playtime/spending core

Shallow embedding of the pure computation core of the repository:

* the Top-N selector pipeline of `landing.tsx` / `games-chart.tsx`
  (`filter → sort → slice`),
* the theme resolver `getGameTheme` of `landing.tsx`,
* the spending estimator `calculateSpendingStats` of the spendings route.

Modelling conventions:

* JavaScript numbers are modelled as exact rationals (`ℚ`) resp. integers
  (`ℤ`); the floating-point rounding of IEEE doubles is not modelled, the
  numeric formulas of the source are read as exact arithmetic.
* `Math.random()` draws are modelled by an injected stream of draws, one
  record of three rationals per game; a valid draw lies in `[0,1)`.
* JavaScript division (which can produce `Infinity`/`NaN` on a zero
  divisor) is modelled by `JSVal`/`jsDiv`.
* `Array.prototype.reduce` without an initial value throws a `TypeError`
  on an empty array; `calculateSpendingStats` therefore returns an
  `Option`, with `none` modelling the thrown exception.
* `Array.prototype.sort` with the comparator `(a, b) => key(b) - key(a)`
  is (per ECMAScript 2019) a stable descending sort by `key`; it is
  modelled by the stable insertion sort `sortByKeyDesc`.
* The two `Date`-dependent values (`new Date().getFullYear()` and
  `new Date(timecreated * 1000).getFullYear()`) are environment inputs
  and are passed to `calculateSpendingStats` as explicit parameters
  `currentYear` and `accountCreatedYear`.
-/

namespace WrappedTessl

/-- One owned game, the `Game` interface of the source. -/
structure Game where
  appid : Int
  name : String
  playtime_forever : Int
  deriving Repr, DecidableEq

/-- The part of `ProfileData` that `calculateSpendingStats` reads
(`owned_games.game_count` and `owned_games.games`); the account-creation
year is passed separately (see the module docstring). -/
structure ProfileData where
  game_count : Int
  games : List Game
  deriving Repr, DecidableEq

/-! ## Stable descending sort (model of `Array.prototype.sort` with
comparator `(a, b) => key(b) - key(a)`) -/

/-- Insert `x` into a list of elements that originally came after `x`:
`x` goes before every element whose key is not strictly larger. -/
def insertDesc (key : α → Int) (x : α) : List α → List α
  | [] => [x]
  | y :: ys => if key x < key y then y :: insertDesc key x ys else x :: y :: ys

/-- Stable insertion sort, descending by `key`. -/
def sortByKeyDesc (key : α → Int) : List α → List α
  | [] => []
  | x :: xs => insertDesc key x (sortByKeyDesc key xs)

/-- The Top-N selector of `landing.tsx` (`n = 4`) and `games-chart.tsx`
(`n = 10`): drop zero-playtime games, sort by playtime descending
(stable), keep the first `n`. -/
def selectTop (games : List Game) (n : Nat) : List Game :=
  (sortByKeyDesc (fun g => g.playtime_forever)
    (games.filter (fun g => decide (0 < g.playtime_forever)))).take n

/-! ## Theme resolver (`getGameTheme` in `landing.tsx`) -/

/-- A visual theme record, fields exactly as in the source literals. -/
structure Theme where
  background : String
  primaryColor : String
  secondaryColor : String
  accentGradient : String
  tagline : String
  decorative : String
  deriving Repr, DecidableEq

def warframeTheme : Theme where
  background := "linear-gradient(135deg, #1e1e2e 0%, #2d1b3d 25%, #4a0e4e 50%, #1e1e2e 75%, #0f0f1e 100%)"
  primaryColor := "#00d4ff"
  secondaryColor := "#ffd700"
  accentGradient := "linear-gradient(135deg, #ffd700 0%, #ffed4e 50%, #00d4ff 100%)"
  tagline := "Your journey through the Origin System continues"
  decorative := "hexagon"

def troveTheme : Theme where
  background := "linear-gradient(135deg, #2d1b69 0%, #4a90e2 25%, #7b68ee 50%, #9370db 75%, #2d1b69 100%)"
  primaryColor := "#ffd700"
  secondaryColor := "#ff69b4"
  accentGradient := "linear-gradient(135deg, #ffd700 0%, #ff69b4 50%, #7b68ee 100%)"
  tagline := "Adventure awaits in the voxel realms"
  decorative := "cube"

def skyrimTheme : Theme where
  background := "linear-gradient(135deg, #2c1810 0%, #3d2817 25%, #4a2c1a 50%, #5a3a24 75%, #2c1810 100%)"
  primaryColor := "#d4af37"
  secondaryColor := "#8b7355"
  accentGradient := "linear-gradient(135deg, #d4af37 0%, #f4d03f 50%, #8b7355 100%)"
  tagline := "The Dragonborn's legacy continues"
  decorative := "dragon"

def hollowKnightTheme : Theme where
  background := "linear-gradient(135deg, #0a0a0a 0%, #1a1a2e 25%, #16213e 50%, #0f3460 75%, #0a0a0a 100%)"
  primaryColor := "#e94560"
  secondaryColor := "#00d4ff"
  accentGradient := "linear-gradient(135deg, #e94560 0%, #ff6b9d 50%, #00d4ff 100%)"
  tagline := "Descend into the depths of Hallownest"
  decorative := "mask"

def defaultTheme : Theme where
  background := "linear-gradient(135deg, #1e1e2e 0%, #2d1b3d 50%, #1e1e2e 100%)"
  primaryColor := "#00d4ff"
  secondaryColor := "#ffd700"
  accentGradient := "linear-gradient(135deg, #ffd700 0%, #00d4ff 100%)"
  tagline := "Your gaming journey continues"
  decorative := "circle"

/-- Model of `String.prototype.toLowerCase` on the (ASCII) game names:
lower-case every character. -/
def jsToLower (s : String) : List Char :=
  s.data.map Char.toLower

/-- Model of `String.prototype.includes`: `pat` occurs contiguously in
the second argument. -/
def listIncludes (pat : List Char) : List Char → Bool
  | [] => pat.isEmpty
  | c :: rest => pat.isPrefixOf (c :: rest) || listIncludes pat rest

/-- Model of `getGameTheme` from `landing.tsx`: case-insensitive substring match
against the ordered pattern list, first match wins, default otherwise. -/
def getGameTheme (gameName : String) : Theme :=
  let name := jsToLower gameName
  if listIncludes "warframe".data name then warframeTheme
  else if listIncludes "trove".data name then troveTheme
  else if listIncludes "skyrim".data name || listIncludes "elder scrolls".data name then
    skyrimTheme
  else if listIncludes "hollow knight".data name then hollowKnightTheme
  else defaultTheme

/-! ## Spending estimator (`calculateSpendingStats`) -/

/-- The `Math.random()` outcomes one game's pricing can consume: the
free-game draw, the tier draw, and the in-tier price draw. -/
structure Draws where
  rFree : ℚ
  rTier : ℚ
  rPrice : ℚ
  deriving Repr, DecidableEq

/-- A draw is valid when every component lies in `[0,1)`, the range of
`Math.random()`. -/
def validDraw (d : Draws) : Prop :=
  0 ≤ d.rFree ∧ d.rFree < 1 ∧ 0 ≤ d.rTier ∧ d.rTier < 1 ∧ 0 ≤ d.rPrice ∧ d.rPrice < 1

instance (d : Draws) : Decidable (validDraw d) := by
  unfold validDraw; infer_instance

/-- A game together with its synthetic `estimatedPrice`. -/
structure PricedGame where
  appid : Int
  name : String
  playtime_forever : Int
  estimatedPrice : Int
  deriving Repr, DecidableEq

/-- Price assignment for one game (the body of the `games.map` in
`calculateSpendingStats`). -/
def priceGame (g : Game) (d : Draws) : PricedGame :=
  if g.playtime_forever = 0 ∧ d.rFree < 15/100 then
    ⟨g.appid, g.name, g.playtime_forever, 0⟩
  else
    ⟨g.appid, g.name, g.playtime_forever,
      if d.rTier < 3/10 then ⌊d.rPrice * 30 + 40⌋
      else if d.rTier < 8/10 then ⌊d.rPrice * 25 + 5⌋
      else ⌊d.rPrice * 9 + 1⌋⟩

/-- Price assignment over the whole list, game `i` consuming draw `i` of
the injected random stream. -/
def assignPrices (draws : Nat → Draws) (games : List Game) : List PricedGame :=
  games.enum.map (fun p => priceGame p.2 (draws p.1))

/-- A JavaScript number that may be the result of a division: finite, or
one of the non-finite values `Infinity`, `-Infinity`, `NaN`. -/
inductive JSVal where
  | finite (q : ℚ)
  | nan
  | posInf
  | negInf
  deriving Repr, DecidableEq

/-- JavaScript division of two finite numbers. -/
def jsDiv (a b : ℚ) : JSVal :=
  if b ≠ 0 then .finite (a / b)
  else if 0 < a then .posInf
  else if a < 0 then .negInf
  else .nan

/-- One step of the `reduce` that finds the most expensive game: keep
the accumulator unless the candidate is strictly more expensive. -/
def pickMax (m g : PricedGame) : PricedGame :=
  if m.estimatedPrice < g.estimatedPrice then g else m

/-- Model of `Array.prototype.reduce` without an initial value: `none` models the
`TypeError` thrown on an empty array. -/
def reduceMax : List PricedGame → Option PricedGame
  | [] => none
  | x :: xs => some (xs.foldl pickMax x)

/-- The `SpendingStats` record of the source. `yearlyBreakdown` entries
are `(year, amount)`; `topExpensiveGames` entries are
`(name, price, playtime)`; `categoryBreakdown` entries are
`(category, count, total)`. -/
structure SpendingStats where
  totalSpent : Int
  averagePerGame : JSVal
  gamesOwned : Int
  estimatedFreeGames : Int
  estimatedPaidGames : Int
  mostExpensiveGame : String × Int
  yearlyBreakdown : List (Int × Int)
  topExpensiveGames : List (String × Int × Int)
  categoryBreakdown : List (String × Int × Int)
  deriving Repr, DecidableEq

/-- Source: `const estimatedFreeGames = Math.floor(totalGames * 0.15)`. -/
def estimatedFreeOf (data : ProfileData) : Int :=
  ⌊(data.game_count : ℚ) * (15/100)⌋

/-- Source: `const estimatedPaidGames = totalGames - estimatedFreeGames`. -/
def estimatedPaidOf (data : ProfileData) : Int :=
  data.game_count - estimatedFreeOf data

/-- Source: `const gamesWithPrices = games.map(...)`. -/
def gamesWithPricesOf (draws : Nat → Draws) (data : ProfileData) : List PricedGame :=
  assignPrices draws data.games

/-- Source: `const totalSpent = gamesWithPrices.reduce((sum, g) => sum + g.estimatedPrice, 0)`. -/
def totalSpentOf (draws : Nat → Draws) (data : ProfileData) : Int :=
  ((gamesWithPricesOf draws data).map (fun g => g.estimatedPrice)).sum

/-- Source: `const topExpensiveGames = [...gamesWithPrices].sort(...).slice(0, 5).map(...)`. -/
def topExpensiveOf (draws : Nat → Draws) (data : ProfileData) : List (String × Int × Int) :=
  ((sortByKeyDesc (fun g => g.estimatedPrice) (gamesWithPricesOf draws data)).take 5).map
    (fun g => (g.name, g.estimatedPrice, g.playtime_forever))

/-- The `yearlyBreakdown` loop: `for (i = 0; i < Math.min(accountYears, 5); i++)`
with `accountYears = currentYear - accountCreated.getFullYear() + 1` and
`amount = Math.max(0, Math.floor(totalSpent * (0.3 - i * 0.05)))`. -/
def yearlyOf (currentYear accountCreatedYear totalSpent : Int) : List (Int × Int) :=
  (List.range (min (currentYear - accountCreatedYear + 1) 5).toNat).map
    (fun (i : Nat) => (currentYear - (i : Int),
      max 0 ⌊(totalSpent : ℚ) * (3/10 - (i : ℚ) * (5/100))⌋))

/-- The fixed `categoryBreakdown` literal. -/
def categoryOf (data : ProfileData) (totalSpent : Int) : List (String × Int × Int) :=
  [("AAA Titles", ⌊(data.game_count : ℚ) * (3/10)⌋, ⌊(totalSpent : ℚ) * (55/100)⌋),
   ("Indie Games", ⌊(data.game_count : ℚ) * (5/10)⌋, ⌊(totalSpent : ℚ) * (3/10)⌋),
   ("Budget Games", ⌊(data.game_count : ℚ) * (2/10)⌋, ⌊(totalSpent : ℚ) * (15/100)⌋)]

/-- Model of `calculateSpendingStats` from the spendings route.  `none` models
the `TypeError` thrown by the initial-value-free `reduce` on an empty
`games` array. -/
def calculateSpendingStats (currentYear accountCreatedYear : Int)
    (draws : Nat → Draws) (data : ProfileData) : Option SpendingStats :=
  match reduceMax (gamesWithPricesOf draws data) with
  | none => none
  | some m =>
    some
      { totalSpent := totalSpentOf draws data
        averagePerGame :=
          jsDiv (totalSpentOf draws data : ℚ) (estimatedPaidOf data : ℚ)
        gamesOwned := data.game_count
        estimatedFreeGames := estimatedFreeOf data
        estimatedPaidGames := estimatedPaidOf data
        mostExpensiveGame := (m.name, m.estimatedPrice)
        yearlyBreakdown := yearlyOf currentYear accountCreatedYear (totalSpentOf draws data)
        topExpensiveGames := topExpensiveOf draws data
        categoryBreakdown := categoryOf data (totalSpentOf draws data) }

/-! ## Concrete inputs used by witnesses and counterexamples -/

/-- A deterministic draw stream: never the free-game branch
(`rFree = 1` would not occur for real `Math.random()`, but the free
branch only tests `rFree < 0.15`), always the AAA tier at its lowest
price (`rTier = 0`, `rPrice = 0`). -/
def d0 : Nat → Draws := fun _ => ⟨1/2, 0, 0⟩

/-- A profile with an empty `games` array. -/
def emptySnap : ProfileData := ⟨0, []⟩

/-- A profile with one played game and an authoritative count of 100. -/
def snapA : ProfileData := ⟨100, [⟨1, "A", 5⟩]⟩

/-- A profile whose authoritative `game_count` is `0` while the `games`
array is non-empty (the count is a separate upstream field), driving
`estimatedPaidGames` to `0`. -/
def snapPaid0 : ProfileData := ⟨0, [⟨1, "A", 10⟩]⟩

/-- The concrete output of `calculateSpendingStats 2026 2020 d0 snapPaid0`. -/
def statsPaid0 : SpendingStats where
  totalSpent := 40
  averagePerGame := JSVal.posInf
  gamesOwned := 0
  estimatedFreeGames := 0
  estimatedPaidGames := 0
  mostExpensiveGame := ("A", 40)
  yearlyBreakdown := [(2026, 12), (2025, 10), (2024, 8), (2023, 6), (2022, 4)]
  topExpensiveGames := [("A", 40, 10)]
  categoryBreakdown := [("AAA Titles", 0, 22), ("Indie Games", 0, 12), ("Budget Games", 0, 6)]

/-- The concrete output of `calculateSpendingStats 2026 2020 d0 snapA`. -/
def statsA : SpendingStats where
  totalSpent := 40
  averagePerGame := JSVal.finite (8/17)
  gamesOwned := 100
  estimatedFreeGames := 15
  estimatedPaidGames := 85
  mostExpensiveGame := ("A", 40)
  yearlyBreakdown := [(2026, 12), (2025, 10), (2024, 8), (2023, 6), (2022, 4)]
  topExpensiveGames := [("A", 40, 5)]
  categoryBreakdown := [("AAA Titles", 30, 22), ("Indie Games", 50, 12), ("Budget Games", 20, 6)]

/-! ## Lemmas about the stable descending sort -/

theorem insertDesc_perm (key : α → Int) (x : α) (l : List α) :
    List.Perm (insertDesc key x l) (x :: l) := by
  induction l with
  | nil => simp [insertDesc]
  | cons y ys ih =>
    simp only [insertDesc]
    split
    · exact (ih.cons y).trans (List.Perm.swap x y ys)
    · exact List.Perm.refl _

theorem sortByKeyDesc_perm (key : α → Int) (l : List α) :
    List.Perm (sortByKeyDesc key l) l := by
  induction l with
  | nil => exact List.Perm.refl _
  | cons x xs ih =>
    exact (insertDesc_perm key x (sortByKeyDesc key xs)).trans (ih.cons x)

theorem pairwise_insertDesc (key : α → Int) (x : α) (l : List α)
    (h : l.Pairwise (fun a b => key b ≤ key a)) :
    (insertDesc key x l).Pairwise (fun a b => key b ≤ key a) := by
  induction l with
  | nil => simp [insertDesc]
  | cons y ys ih =>
    rw [List.pairwise_cons] at h
    simp only [insertDesc]
    split
    · rename_i hxy
      rw [List.pairwise_cons]
      refine ⟨fun a ha => ?_, ih h.2⟩
      rcases List.mem_cons.1 ((List.Perm.mem_iff (insertDesc_perm key x ys)).1 ha) with ha | ha
      · subst ha; exact le_of_lt hxy
      · exact h.1 a ha
    · rename_i hxy
      rw [List.pairwise_cons]
      exact ⟨fun a ha => by
        rcases List.mem_cons.1 ha with ha | ha
        · subst ha; exact le_of_not_lt hxy
        · exact le_trans (h.1 a ha) (le_of_not_lt hxy),
        List.pairwise_cons.2 h⟩

theorem sortByKeyDesc_sorted (key : α → Int) (l : List α) :
    (sortByKeyDesc key l).Pairwise (fun a b => key b ≤ key a) := by
  induction l with
  | nil => simp [sortByKeyDesc]
  | cons x xs ih => exact pairwise_insertDesc key x _ ih

theorem insertDesc_filter (key : α → Int) (x : α) (l : List α) (p : Int) :
    (insertDesc key x l).filter (fun a => decide (key a = p)) =
      if key x = p then x :: l.filter (fun a => decide (key a = p))
      else l.filter (fun a => decide (key a = p)) := by
  induction l with
  | nil => by_cases hx : key x = p <;> simp [insertDesc, List.filter, hx]
  | cons y ys ih =>
    simp only [insertDesc]
    split
    · rename_i hxy
      by_cases hx : key x = p
      · have hy : ¬ key y = p := by omega
        simp [List.filter, hx, hy, ih]
      · by_cases hy : key y = p <;> simp [List.filter, hx, hy, ih]
    · by_cases hx : key x = p <;> simp [List.filter, hx]

theorem sortByKeyDesc_filter (key : α → Int) (l : List α) (p : Int) :
    (sortByKeyDesc key l).filter (fun a => decide (key a = p)) =
      l.filter (fun a => decide (key a = p)) := by
  induction l with
  | nil => rfl
  | cons x xs ih =>
    simp only [sortByKeyDesc, insertDesc_filter]
    by_cases hx : key x = p <;> simp [List.filter, hx, ih]

/-! ## Lemmas about the initial-value-free max reduction -/

theorem le_key_foldl_pickMax (a : PricedGame) (xs : List PricedGame) :
    a.estimatedPrice ≤ (xs.foldl pickMax a).estimatedPrice := by
  induction xs generalizing a with
  | nil => exact le_refl _
  | cons y ys ih =>
    refine le_trans ?_ (ih (pickMax a y))
    unfold pickMax
    split
    · exact le_of_lt (by assumption)
    · exact le_refl _

theorem mem_key_le_foldl_pickMax (a : PricedGame) (xs : List PricedGame) :
    ∀ g ∈ xs, g.estimatedPrice ≤ (xs.foldl pickMax a).estimatedPrice := by
  induction xs generalizing a with
  | nil => intro g hg; cases hg
  | cons y ys ih =>
    intro g hg
    rcases List.mem_cons.1 hg with hg | hg
    · subst hg
      refine le_trans ?_ (le_key_foldl_pickMax (pickMax a g) ys)
      unfold pickMax
      split
      · exact le_refl _
      · exact le_of_not_lt (by assumption)
    · exact ih (pickMax a y) g hg

theorem foldl_pickMax_mem (a : PricedGame) (xs : List PricedGame) :
    xs.foldl pickMax a ∈ a :: xs := by
  induction xs generalizing a with
  | nil => exact List.mem_singleton.2 rfl
  | cons y ys ih =>
    rcases List.mem_cons.1 (ih (pickMax a y)) with h | h
    · rw [List.foldl_cons, h]
      unfold pickMax
      split
      · exact List.mem_cons_of_mem a (List.mem_cons_self y ys)
      · exact List.mem_cons_self a _
    · exact List.mem_cons_of_mem a (List.mem_cons_of_mem y h)

theorem foldl_pickMax_eq_or_lt (a : PricedGame) (xs : List PricedGame) :
    xs.foldl pickMax a = a ∨
      a.estimatedPrice < (xs.foldl pickMax a).estimatedPrice := by
  induction xs generalizing a with
  | nil => exact Or.inl rfl
  | cons y ys ih =>
    rw [List.foldl_cons]
    by_cases h : a.estimatedPrice < y.estimatedPrice
    · right
      refine lt_of_lt_of_le ?_ (le_key_foldl_pickMax (pickMax a y) ys)
      unfold pickMax
      rw [if_pos h]
      exact h
    · have hp : pickMax a y = a := by unfold pickMax; rw [if_neg h]
      rw [hp]
      exact ih a

theorem foldl_pickMax_first (a : PricedGame) (xs : List PricedGame) :
    ((a :: xs).filter
        (fun g => decide (g.estimatedPrice = (xs.foldl pickMax a).estimatedPrice))).head? =
      some (xs.foldl pickMax a) := by
  induction xs generalizing a with
  | nil => simp [List.filter]
  | cons y ys ih =>
    rw [List.foldl_cons]
    by_cases h : a.estimatedPrice < y.estimatedPrice
    · have hp : pickMax a y = y := by unfold pickMax; rw [if_pos h]
      rw [hp]
      have hlt : a.estimatedPrice < (ys.foldl pickMax y).estimatedPrice :=
        lt_of_lt_of_le h (le_key_foldl_pickMax y ys)
      have hne : ¬ a.estimatedPrice = (ys.foldl pickMax y).estimatedPrice := ne_of_lt hlt
      rw [List.filter_cons]
      simp only [hne, decide_eq_true_eq, if_neg]
      exact ih y
    · have hp : pickMax a y = a := by unfold pickMax; rw [if_neg h]
      rw [hp]
      have ham := le_key_foldl_pickMax a ys
      by_cases he : a.estimatedPrice = (ys.foldl pickMax a).estimatedPrice
      · have hma : ys.foldl pickMax a = a := by
          rcases foldl_pickMax_eq_or_lt a ys with heq | hlt
          · exact heq
          · omega
        rw [List.filter_cons, if_pos (by simp [he])]
        simp [hma]
      · have hy : ¬ y.estimatedPrice = (ys.foldl pickMax a).estimatedPrice := by
          have hya : y.estimatedPrice ≤ a.estimatedPrice := le_of_not_lt h
          omega
        rw [List.filter_cons, if_neg (by simp [he]), List.filter_cons, if_neg (by simp [hy])]
        have hih := ih a
        rw [List.filter_cons, if_neg (by simp [he])] at hih
        exact hih

/-- The head of the stable descending sort by price is exactly the
element the initial-value-free `reduce` selects: the first game
attaining the maximal price. -/
theorem sortByKeyDesc_head (x : PricedGame) (xs : List PricedGame) :
    (sortByKeyDesc (fun g => g.estimatedPrice) (x :: xs)).head? =
      some (xs.foldl pickMax x) := by
  have hperm := sortByKeyDesc_perm (fun g => g.estimatedPrice) (x :: xs)
  have hsorted := sortByKeyDesc_sorted (fun g => g.estimatedPrice) (x :: xs)
  cases hs : sortByKeyDesc (fun g => g.estimatedPrice) (x :: xs) with
  | nil =>
    rw [hs] at hperm
    exact absurd hperm.symm (by simp)
  | cons h t =>
    rw [hs] at hperm hsorted
    have hhl : h ∈ x :: xs := hperm.mem_iff.1 (List.mem_cons_self h t)
    have hub : ∀ g ∈ x :: xs, g.estimatedPrice ≤ (xs.foldl pickMax x).estimatedPrice := by
      intro g hg
      rcases List.mem_cons.1 hg with hg | hg
      · subst hg; exact le_key_foldl_pickMax g xs
      · exact mem_key_le_foldl_pickMax x xs g hg
    have hms : xs.foldl pickMax x ∈ h :: t := hperm.mem_iff.2 (foldl_pickMax_mem x xs)
    have hmh : (xs.foldl pickMax x).estimatedPrice ≤ h.estimatedPrice := by
      rcases List.mem_cons.1 hms with hms | hmt
      · rw [hms]
      · exact (List.pairwise_cons.1 hsorted).1 _ hmt
    have hkey : h.estimatedPrice = (xs.foldl pickMax x).estimatedPrice :=
      le_antisymm (hub h hhl) hmh
    have hfil := sortByKeyDesc_filter (fun g => g.estimatedPrice) (x :: xs)
      (xs.foldl pickMax x).estimatedPrice
    rw [hs] at hfil
    have hfirst := foldl_pickMax_first x xs
    rw [← hfil, List.filter_cons, if_pos (by simp [hkey])] at hfirst
    simpa using hfirst

/-- Inversion principle: a successful run of `calculateSpendingStats`
exposes the chosen most-expensive game and the full output record. -/
theorem calcStats_inv {cy ay : Int} {draws : Nat → Draws} {data : ProfileData}
    {s : SpendingStats} (h : calculateSpendingStats cy ay draws data = some s) :
    ∃ m, reduceMax (gamesWithPricesOf draws data) = some m ∧
      s = { totalSpent := totalSpentOf draws data
            averagePerGame :=
              jsDiv (totalSpentOf draws data : ℚ) (estimatedPaidOf data : ℚ)
            gamesOwned := data.game_count
            estimatedFreeGames := estimatedFreeOf data
            estimatedPaidGames := estimatedPaidOf data
            mostExpensiveGame := (m.name, m.estimatedPrice)
            yearlyBreakdown := yearlyOf cy ay (totalSpentOf draws data)
            topExpensiveGames := topExpensiveOf draws data
            categoryBreakdown := categoryOf data (totalSpentOf draws data) } := by
  unfold calculateSpendingStats at h
  cases hr : reduceMax (gamesWithPricesOf draws data) with
  | none => rw [hr] at h; cases h
  | some m =>
    rw [hr] at h
    exact ⟨m, rfl, (Option.some.inj h).symm⟩

theorem jsDiv_of_ne (a b : ℚ) (h : b ≠ 0) : jsDiv a b = JSVal.finite (a / b) := by
  unfold jsDiv
  rw [if_pos h]

theorem jsDiv_zero_ne_finite (a q : ℚ) : jsDiv a 0 ≠ JSVal.finite q := by
  unfold jsDiv
  split_ifs <;> simp_all

theorem head?_take_succ (l : List α) (n : Nat) : (l.take (n + 1)).head? = l.head? := by
  cases l <;> rfl

/-! ## Lemmas about the yearly breakdown -/

theorem yearlyOf_length (cy ay T : Int) :
    (yearlyOf cy ay T).length = (min (cy - ay + 1) 5).toNat := by
  unfold yearlyOf
  rw [List.length_map, List.length_range]

theorem yearlyOf_get (cy ay T : Int) (i : Nat) (hi : i < (yearlyOf cy ay T).length) :
    (yearlyOf cy ay T)[i] =
      (cy - (i : Int), max 0 ⌊(T : ℚ) * (3/10 - (i : ℚ) * (5/100))⌋) := by
  unfold yearlyOf at hi ⊢
  rw [List.getElem_map, List.getElem_range]

theorem amt_le (T : Int) (hT : 0 ≤ T) (w : ℚ) (hw : 0 ≤ w) :
    ((max 0 ⌊(T : ℚ) * w⌋ : Int) : ℚ) ≤ (T : ℚ) * w := by
  push_cast
  apply max_le
  · exact mul_nonneg (by exact_mod_cast hT) hw
  · exact Int.floor_le _

theorem amt_le_i (T : Int) (hT : 0 ≤ T) (i : Nat) (hi : i ≤ 5) :
    ((max 0 ⌊(T : ℚ) * (3/10 - (i : ℚ) * (5/100))⌋ : Int) : ℚ) ≤
      (T : ℚ) * (3/10 - (i : ℚ) * (5/100)) := by
  apply amt_le T hT
  have hq : (i : ℚ) ≤ 5 := by exact_mod_cast hi
  linarith

theorem amount_antitone (T : Int) (hT : 0 ≤ T) (i j : Nat) (hij : i ≤ j) :
    max 0 ⌊(T : ℚ) * (3/10 - (j : ℚ) * (5/100))⌋ ≤
      max 0 ⌊(T : ℚ) * (3/10 - (i : ℚ) * (5/100))⌋ := by
  apply max_le_max (le_refl (0 : Int))
  apply Int.floor_le_floor
  apply mul_le_mul_of_nonneg_left _ (by exact_mod_cast hT)
  have hq : (i : ℚ) ≤ (j : ℚ) := by exact_mod_cast hij
  linarith

theorem yearlyOf_pairwise (cy ay T : Int) (hT : 0 ≤ T) :
    (yearlyOf cy ay T).Pairwise (fun e f => f.2 ≤ e.2) := by
  unfold yearlyOf
  exact List.Pairwise.map _
    (fun i j hij => amount_antitone T hT i j (le_of_lt hij))
    (List.pairwise_lt_range _)

theorem yearlyOf_sum_le (cy ay T : Int) (hT : 0 ≤ T) :
    ((yearlyOf cy ay T).map Prod.snd).sum ≤ T := by
  have hTQ : (0 : ℚ) ≤ (T : ℚ) := by exact_mod_cast hT
  have h0 := amt_le_i T hT 0 (by norm_num)
  have h1 := amt_le_i T hT 1 (by norm_num)
  have h2 := amt_le_i T hT 2 (by norm_num)
  have h3 := amt_le_i T hT 3 (by norm_num)
  have h4 := amt_le_i T hT 4 (by norm_num)
  push_cast at h0 h1 h2 h3 h4
  have hsum : ∀ k : Nat, k ≤ 5 →
      ((List.range k).map
        (fun (i : Nat) => max 0 ⌊(T : ℚ) * (3/10 - (i : ℚ) * (5/100))⌋)).sum ≤ T := by
    intro k hk
    interval_cases k <;>
      simp only [List.range_succ, List.range_zero, List.map_append, List.map_cons,
        List.map_nil, List.sum_append, List.sum_cons, List.sum_nil, List.nil_append] <;>
      rw [← @Int.cast_le ℚ] <;> push_cast <;> linarith
  have hmap : (yearlyOf cy ay T).map Prod.snd =
      (List.range (min (cy - ay + 1) 5).toNat).map
        (fun (i : Nat) => max 0 ⌊(T : ℚ) * (3/10 - (i : ℚ) * (5/100))⌋) := by
    unfold yearlyOf
    rw [List.map_map]
    rfl
  rw [hmap]
  exact hsum _ (by omega)

/-! ## Lemmas about the per-game price assignment -/

theorem priceGame_tiers (g : Game) (d : Draws) (hd : validDraw d) :
    (priceGame g d).playtime_forever = g.playtime_forever ∧
    (0 ≤ (priceGame g d).estimatedPrice ∧ (priceGame g d).estimatedPrice < 70) ∧
    ((priceGame g d).estimatedPrice = 0 → g.playtime_forever = 0) ∧
    ((priceGame g d).estimatedPrice = 0 ∨
      (40 ≤ (priceGame g d).estimatedPrice ∧ (priceGame g d).estimatedPrice < 70) ∨
      (5 ≤ (priceGame g d).estimatedPrice ∧ (priceGame g d).estimatedPrice < 30) ∨
      (1 ≤ (priceGame g d).estimatedPrice ∧ (priceGame g d).estimatedPrice < 10)) := by
  obtain ⟨hf0, hf1, ht0, ht1, hp0, hp1⟩ := hd
  unfold priceGame
  split_ifs with h1 h2 h3 <;> dsimp only
  · exact ⟨rfl, ⟨le_refl 0, by norm_num⟩, fun _ => h1.1, Or.inl rfl⟩
  · have hlo : (40 : Int) ≤ ⌊d.rPrice * 30 + 40⌋ := by
      apply Int.le_floor.2
      push_cast
      linarith
    have hhi : ⌊d.rPrice * 30 + 40⌋ < 70 := by
      apply Int.floor_lt.2
      push_cast
      linarith
    exact ⟨rfl, ⟨by omega, by omega⟩, by omega, Or.inr (Or.inl ⟨hlo, hhi⟩)⟩
  · have hlo : (5 : Int) ≤ ⌊d.rPrice * 25 + 5⌋ := by
      apply Int.le_floor.2
      push_cast
      linarith
    have hhi : ⌊d.rPrice * 25 + 5⌋ < 30 := by
      apply Int.floor_lt.2
      push_cast
      linarith
    exact ⟨rfl, ⟨by omega, by omega⟩, by omega, Or.inr (Or.inr (Or.inl ⟨hlo, hhi⟩))⟩
  · have hlo : (1 : Int) ≤ ⌊d.rPrice * 9 + 1⌋ := by
      apply Int.le_floor.2
      push_cast
      linarith
    have hhi : ⌊d.rPrice * 9 + 1⌋ < 10 := by
      apply Int.floor_lt.2
      push_cast
      linarith
    exact ⟨rfl, ⟨by omega, by omega⟩, by omega, Or.inr (Or.inr (Or.inr ⟨hlo, hhi⟩))⟩

/-! ## Claims -/

/-- C1 (corrected): the spec claims that for an empty `games` list
`estimateSpending` returns zero-valued aggregates and never raises; the
code instead throws, because the `mostExpensiveGame` reduce has no
initial value and `[].reduce(f)` throws a `TypeError`.  Amended claim:
for every `ProfileSnapshot` whose games list is empty,
`calculateSpendingStats` raises (modelled as `none`) instead of
returning degenerate zero-valued aggregates. -/
theorem C1_estimateSpending_empty_throws (cy ay : Int) (draws : Nat → Draws)
    (data : ProfileData) (h : data.games = []) :
    calculateSpendingStats cy ay draws data = none := by
  unfold calculateSpendingStats gamesWithPricesOf assignPrices
  rw [h]
  rfl

/-- C1 counterexample: at the concrete empty-library input the function
raises (`none`); it does not return a zero-valued record. -/
theorem C1_counterexample :
    calculateSpendingStats 2026 2020 d0 emptySnap = none := by
  with_unfolding_all decide

/-- C1 witness: the amended theorem applied at a concrete input. -/
theorem C1_witness : calculateSpendingStats 2030 1999 d0 ⟨7, []⟩ = none :=
  C1_estimateSpending_empty_throws 2030 1999 d0 ⟨7, []⟩ rfl

/-- C2 (corrected): `averagePerGame` is indeed
`totalSpent / estimatedPaidGames`, but the division is NOT guarded: when
`estimatedPaidGames = 0` the code performs the JavaScript division by
zero, yielding `Infinity`/`NaN`, never a defined finite value such as
`0`. -/
theorem C2_averagePerGame_unguarded (cy ay : Int) (draws : Nat → Draws)
    (data : ProfileData) (s : SpendingStats)
    (h : calculateSpendingStats cy ay draws data = some s) :
    s.averagePerGame = jsDiv (s.totalSpent : ℚ) (s.estimatedPaidGames : ℚ) ∧
    (s.estimatedPaidGames ≠ 0 →
      s.averagePerGame =
        JSVal.finite ((s.totalSpent : ℚ) / (s.estimatedPaidGames : ℚ))) ∧
    (s.estimatedPaidGames = 0 → ∀ q : ℚ, s.averagePerGame ≠ JSVal.finite q) := by
  obtain ⟨m, hm, rfl⟩ := calcStats_inv h
  refine ⟨rfl, fun h0 => ?_, fun h0 q => ?_⟩
  · have h1 : estimatedPaidOf data ≠ 0 := h0
    exact jsDiv_of_ne _ _ (Int.cast_ne_zero.2 h1)
  · have h1 : estimatedPaidOf data = 0 := h0
    have hz : ((estimatedPaidOf data : Int) : ℚ) = 0 := by exact_mod_cast h1
    show jsDiv (totalSpentOf draws data : ℚ) (estimatedPaidOf data : ℚ) ≠
      JSVal.finite q
    rw [hz]
    exact jsDiv_zero_ne_finite _ q

/-- C2 counterexample: a concrete profile with `estimatedPaidGames = 0`
(`game_count = 0`, one played game): the code performs the division and
produces `Infinity`, not a guarded defined value such as `0`. -/
theorem C2_counterexample :
    (calculateSpendingStats 2026 2020 d0 snapPaid0).map
      (fun s => s.averagePerGame) = some JSVal.posInf := by
  with_unfolding_all decide

set_option maxRecDepth 8000 in
/-- C2 witness: the amended theorem applied at the concrete
zero-paid-games profile. -/
theorem C2_witness :
    statsPaid0.averagePerGame =
      jsDiv (statsPaid0.totalSpent : ℚ) (statsPaid0.estimatedPaidGames : ℚ) ∧
    statsPaid0.averagePerGame ≠ JSVal.finite 0 := by
  have h : calculateSpendingStats 2026 2020 d0 snapPaid0 = some statsPaid0 := by
    with_unfolding_all decide
  obtain ⟨h1, _, h3⟩ := C2_averagePerGame_unguarded 2026 2020 d0 snapPaid0 statsPaid0 h
  exact ⟨h1, h3 rfl 0⟩

/-- C3 (confirmed): `selectTop` output is sorted non-increasingly by
`playtime_forever`, and the sort is stable: for every playtime value
`p`, the output records with playtime `p` form an initial segment, in
order, of the input records with positive playtime `p` (so equal
playtimes keep their original relative order). -/
theorem C3_selectTop_sorted_stable (games : List Game) (n : Nat) :
    (selectTop games n).Pairwise
      (fun a b => b.playtime_forever ≤ a.playtime_forever) ∧
    ∀ p : Int,
      (selectTop games n).filter (fun g => decide (g.playtime_forever = p)) <+:
        games.filter
          (fun g => decide (g.playtime_forever = p) &&
            decide (0 < g.playtime_forever)) := by
  constructor
  · exact List.Pairwise.sublist (List.take_sublist n _) (sortByKeyDesc_sorted _ _)
  · intro p
    have h0 := List.take_prefix n
      (sortByKeyDesc (fun g => g.playtime_forever)
        (games.filter (fun g => decide (0 < g.playtime_forever))))
    have h1 := h0.filter (fun g => decide (g.playtime_forever = p))
    rw [sortByKeyDesc_filter, List.filter_filter] at h1
    exact h1

/-- C4 (confirmed): `selectTop` returns at most `n` records and never a
record with zero playtime. -/
theorem C4_selectTop_length_no_zero (games : List Game) (n : Nat) :
    (selectTop games n).length ≤ n ∧
    ∀ g ∈ selectTop games n, g.playtime_forever ≠ 0 := by
  constructor
  · rw [selectTop, List.length_take]
    exact min_le_left _ _
  · intro g hg
    have hg2 := List.take_subset n _ hg
    have hg3 := (sortByKeyDesc_perm (fun g : Game => g.playtime_forever)
      (games.filter (fun g => decide (0 < g.playtime_forever)))).mem_iff.1 hg2
    have h4 := (List.mem_filter.1 hg3).2
    have hpos : 0 < g.playtime_forever := of_decide_eq_true h4
    omega

/-- C5 (confirmed): matching is case-insensitive substring containment:
"Warframe", "WARFRAME X" and "warframe: 1999" all resolve to the
Warframe theme (tagline "Your journey through the Origin System
continues", hexagon decoration), and "The Elder Scrolls V: Skyrim"
resolves to the Skyrim theme via the "elder scrolls" alternate
pattern. -/
theorem C5_getGameTheme_matches :
    getGameTheme "Warframe" = warframeTheme ∧
    getGameTheme "WARFRAME X" = warframeTheme ∧
    getGameTheme "warframe: 1999" = warframeTheme ∧
    warframeTheme.tagline = "Your journey through the Origin System continues" ∧
    warframeTheme.decorative = "hexagon" ∧
    getGameTheme "The Elder Scrolls V: Skyrim" = skyrimTheme :=
  ⟨by decide, by decide, by decide, rfl, rfl, by decide⟩

/-- C6 (confirmed): when none of the patterns occurs in the lower-cased
name, `getGameTheme` returns the hardcoded default theme (cyan `#00d4ff`
primary, gold `#ffd700` secondary, circle decoration); as a total Lean
function it never fails. -/
theorem C6_getGameTheme_default (s : String)
    (h : ∀ pat ∈ ["warframe", "trove", "skyrim", "elder scrolls", "hollow knight"],
      listIncludes pat.data (jsToLower s) = false) :
    getGameTheme s = defaultTheme ∧
    defaultTheme.primaryColor = "#00d4ff" ∧
    defaultTheme.secondaryColor = "#ffd700" ∧
    defaultTheme.decorative = "circle" := by
  refine ⟨?_, rfl, rfl, rfl⟩
  have h1 := h "warframe" (by simp)
  have h2 := h "trove" (by simp)
  have h3 := h "skyrim" (by simp)
  have h4 := h "elder scrolls" (by simp)
  have h5 := h "hollow knight" (by simp)
  unfold getGameTheme
  simp [h1, h2, h3, h4, h5]

/-- C6 witness: "Minecraft" matches no pattern and yields the default
theme. -/
theorem C6_witness :
    getGameTheme "Minecraft" = defaultTheme ∧
    defaultTheme.primaryColor = "#00d4ff" ∧
    defaultTheme.secondaryColor = "#ffd700" ∧
    defaultTheme.decorative = "circle" :=
  C6_getGameTheme_default "Minecraft" (by decide)

/-- C7 (confirmed, under exact-rational arithmetic): for an account not
created in the future and a non-negative `totalSpent`, the yearly
breakdown has `min(accountYears, 5)` entries (at most 5); entry `i` is
`(currentYear - i, max 0 ⌊totalSpent * (0.3 - i * 0.05)⌋)`; amounts are
non-increasing; and their sum is at most `totalSpent`. -/
theorem C7_yearlyBreakdown_spec (cy ay : Int) (draws : Nat → Draws)
    (data : ProfileData) (s : SpendingStats)
    (h : calculateSpendingStats cy ay draws data = some s)
    (hay : ay ≤ cy) (hT : 0 ≤ s.totalSpent) :
    ((s.yearlyBreakdown.length : Int) = min (cy - ay + 1) 5 ∧
      s.yearlyBreakdown.length ≤ 5) ∧
    (∀ i (hi : i < s.yearlyBreakdown.length),
      s.yearlyBreakdown[i] =
        (cy - (i : Int),
          max 0 ⌊(s.totalSpent : ℚ) * (3/10 - (i : ℚ) * (5/100))⌋)) ∧
    s.yearlyBreakdown.Pairwise (fun e f => f.2 ≤ e.2) ∧
    (s.yearlyBreakdown.map Prod.snd).sum ≤ s.totalSpent := by
  obtain ⟨m, hm, rfl⟩ := calcStats_inv h
  have hT2 : 0 ≤ totalSpentOf draws data := hT
  refine ⟨⟨?_, ?_⟩, ?_, ?_, ?_⟩
  · show ((yearlyOf cy ay (totalSpentOf draws data)).length : Int) =
      min (cy - ay + 1) 5
    rw [yearlyOf_length]
    omega
  · show (yearlyOf cy ay (totalSpentOf draws data)).length ≤ 5
    rw [yearlyOf_length]
    omega
  · intro i hi
    exact yearlyOf_get cy ay (totalSpentOf draws data) i hi
  · exact yearlyOf_pairwise cy ay _ hT2
  · exact yearlyOf_sum_le cy ay _ hT2

set_option maxRecDepth 8000 in
/-- C7 witness: the theorem applied at the concrete profile `snapA`
(`accountYears = 7`, so 5 entries; `totalSpent = 40`, amounts
`12, 10, 8, 6, 4` summing to `40 ≤ 40`). -/
theorem C7_witness :
    (2020 : Int) ≤ 2026 ∧ 0 ≤ statsA.totalSpent ∧
    (statsA.yearlyBreakdown.length : Int) = min (2026 - 2020 + 1) 5 ∧
    statsA.yearlyBreakdown.Pairwise (fun e f => f.2 ≤ e.2) ∧
    (statsA.yearlyBreakdown.map Prod.snd).sum ≤ statsA.totalSpent := by
  have h : calculateSpendingStats 2026 2020 d0 snapA = some statsA := by
    with_unfolding_all decide
  obtain ⟨⟨h1, _⟩, _, h3, h4⟩ :=
    C7_yearlyBreakdown_spec 2026 2020 d0 snapA statsA h (by norm_num)
      (by norm_num [statsA])
  exact ⟨by norm_num, by norm_num [statsA], h1, h3, h4⟩

/-- C8 (confirmed): for every game and every valid outcome of the random
source, the assigned price is `0` (possible only for zero playtime) or
an integer in `[40,70)`, `[5,30)` or `[1,10)`; in particular every price
is a non-negative integer below 70. -/
theorem C8_assignPrices_tiers (draws : Nat → Draws) (games : List Game)
    (hd : ∀ i, validDraw (draws i)) :
    ∀ pg ∈ assignPrices draws games,
      (0 ≤ pg.estimatedPrice ∧ pg.estimatedPrice < 70) ∧
      (pg.estimatedPrice = 0 → pg.playtime_forever = 0) ∧
      (pg.estimatedPrice = 0 ∨
        (40 ≤ pg.estimatedPrice ∧ pg.estimatedPrice < 70) ∨
        (5 ≤ pg.estimatedPrice ∧ pg.estimatedPrice < 30) ∨
        (1 ≤ pg.estimatedPrice ∧ pg.estimatedPrice < 10)) := by
  intro pg hpg
  obtain ⟨ig, hmem, rfl⟩ := List.mem_map.1 hpg
  obtain ⟨hpt, hbz, hz, htier⟩ := priceGame_tiers ig.2 (draws ig.1) (hd ig.1)
  refine ⟨hbz, fun h0 => ?_, htier⟩
  rw [hpt]
  exact hz h0

/-- C8 witness: the theorem applied to a concrete one-game list with the
deterministic draw stream `d0` (AAA tier, price 40). -/
theorem C8_witness :
    (0 ≤ (⟨1, "A", 5, 40⟩ : PricedGame).estimatedPrice ∧
      (⟨1, "A", 5, 40⟩ : PricedGame).estimatedPrice < 70) ∧
    ((⟨1, "A", 5, 40⟩ : PricedGame).estimatedPrice = 0 →
      (⟨1, "A", 5, 40⟩ : PricedGame).playtime_forever = 0) ∧
    ((⟨1, "A", 5, 40⟩ : PricedGame).estimatedPrice = 0 ∨
      (40 ≤ (⟨1, "A", 5, 40⟩ : PricedGame).estimatedPrice ∧
        (⟨1, "A", 5, 40⟩ : PricedGame).estimatedPrice < 70) ∨
      (5 ≤ (⟨1, "A", 5, 40⟩ : PricedGame).estimatedPrice ∧
        (⟨1, "A", 5, 40⟩ : PricedGame).estimatedPrice < 30) ∨
      (1 ≤ (⟨1, "A", 5, 40⟩ : PricedGame).estimatedPrice ∧
        (⟨1, "A", 5, 40⟩ : PricedGame).estimatedPrice < 10)) :=
  C8_assignPrices_tiers d0 [⟨1, "A", 5⟩]
    (by intro i; show validDraw ⟨1/2, 0, 0⟩; with_unfolding_all decide)
    ⟨1, "A", 5, 40⟩ (by with_unfolding_all decide)

/-- C9 (confirmed, under exact-rational arithmetic):
`estimatedFreeGames = ⌊totalGameCount * 0.15⌋` and
`estimatedPaidGames = totalGameCount - estimatedFreeGames` whenever the
function returns. -/
theorem C9_free_paid_split (cy ay : Int) (draws : Nat → Draws)
    (data : ProfileData) (s : SpendingStats)
    (h : calculateSpendingStats cy ay draws data = some s) :
    s.estimatedFreeGames = ⌊(data.game_count : ℚ) * (15/100)⌋ ∧
    s.estimatedPaidGames = data.game_count - s.estimatedFreeGames := by
  obtain ⟨m, hm, rfl⟩ := calcStats_inv h
  exact ⟨rfl, rfl⟩

set_option maxRecDepth 8000 in
/-- C9 witness: at `game_count = 100` the split is `15` free / `85`
paid. -/
theorem C9_witness :
    statsA.estimatedFreeGames = 15 ∧ statsA.estimatedPaidGames = 85 ∧
    statsA.estimatedFreeGames = ⌊((100 : Int) : ℚ) * (15/100)⌋ ∧
    statsA.estimatedPaidGames = (100 : Int) - statsA.estimatedFreeGames := by
  have h : calculateSpendingStats 2026 2020 d0 snapA = some statsA := by
    with_unfolding_all decide
  obtain ⟨h1, h2⟩ := C9_free_paid_split 2026 2020 d0 snapA statsA h
  exact ⟨rfl, rfl, h1, h2⟩

/-- C10 (confirmed): whenever the function returns, the most expensive
game (first maximum kept by the reduce) agrees in name and price with
the head of `topExpensiveGames` (head of the stable descending sort by
price). -/
theorem C10_mostExpensive_consistent (cy ay : Int) (draws : Nat → Draws)
    (data : ProfileData) (s : SpendingStats)
    (h : calculateSpendingStats cy ay draws data = some s) :
    s.topExpensiveGames.head?.map (fun t => (t.1, t.2.1)) =
      some (s.mostExpensiveGame.1, s.mostExpensiveGame.2) := by
  obtain ⟨m, hm, rfl⟩ := calcStats_inv h
  show (topExpensiveOf draws data).head?.map (fun t => (t.1, t.2.1)) =
    some (m.name, m.estimatedPrice)
  unfold topExpensiveOf
  cases hgl : gamesWithPricesOf draws data with
  | nil =>
    rw [hgl] at hm
    exact Option.noConfusion hm
  | cons x xs =>
    rw [hgl] at hm
    simp only [reduceMax, Option.some.injEq] at hm
    rw [List.head?_map, show (5 : Nat) = 4 + 1 from rfl, head?_take_succ,
      sortByKeyDesc_head, hm]
    rfl

set_option maxRecDepth 8000 in
/-- C10 witness: the theorem applied at the concrete profile
`snapPaid0`. -/
theorem C10_witness :
    statsPaid0.topExpensiveGames.head?.map (fun t => (t.1, t.2.1)) =
      some (statsPaid0.mostExpensiveGame.1, statsPaid0.mostExpensiveGame.2) :=
  C10_mostExpensive_consistent 2026 2020 d0 snapPaid0 statsPaid0
    (by with_unfolding_all decide)

end WrappedTessl
